import Mathlib

/-!
Shallow embedding of the MCP demo server (src/app.py and src/mcp_server.py).

Pure computations of the two transports are translated into executable Lean
definitions.  External effects are made explicit parameters:
  * the filesystem under the resource root is a lookup `String → Option _`,
  * the network outcome of one upstream call is a `PriceLive` / `WeatherLive`
    value (the adapters never retry, so a single outcome suffices),
  * the current UTC date is passed in as a value.
Each adapter-style function additionally returns a `Bool` recording whether
the live upstream call was attempted, so "performs no network call" is
provable.  Python floats that only ever hold exact decimal constants are
modelled as rationals.
-/

namespace MCPDemo

/-! ## Small string helpers (Python `str.lower`, `str.strip`, `str.split`) -/

/-- Python `str.lower()` (mapped over the characters; the symbols and city
names involved are ASCII). -/
def lowerStr (s : String) : String :=
  String.mk (s.data.map Char.toLower)

/-- Python `str.strip()`: drop leading and trailing whitespace. -/
def trimChars (s : String) : String :=
  String.mk (((s.data.dropWhile Char.isWhitespace).reverse.dropWhile
    Char.isWhitespace).reverse)

/-- Split a character list at every occurrence of `sep` (Python
`str.split(sep)` for a one-character separator). -/
def splitCharList (sep : Char) : List Char → List (List Char)
  | [] => [[]]
  | c :: cs =>
    let r := splitCharList sep cs
    if c = sep then [] :: r
    else
      match r with
      | g :: gs => (c :: g) :: gs
      | [] => [[c]]

/-- Value of a list of decimal digit characters. -/
def digitsToNat (cs : List Char) : Nat :=
  cs.foldl (fun a c => a * 10 + (c.toNat - 48)) 0

/-! ## JSON-RPC dispatcher (src/mcp_server.py, `MCPServer.handle_message` /
`MCPServer.handle_tool_call`)

The server state is the single `initialized` flag.  A message is its method
string, the optional correlation id (`None` and an absent id coincide, as in
`message.get("id")`), and — for `tools/call` — the optional `params["name"]`.
The bodies of the five tools are abstracted into an `exec` argument giving
each tool's outcome (`Except.error` models a raised exception, caught at the
dispatcher boundary and mapped to code -32000). -/

structure Message where
  method : String
  id : Option Int
  toolName : Option String
deriving DecidableEq

inductive RpcOut where
  /-- a `{"jsonrpc": "2.0", "result": ..., "id": id}` success envelope -/
  | result (id : Option Int)
  /-- a `{"jsonrpc": "2.0", "error": {code, msg}, "id": id}` envelope -/
  | error (code : Int) (msg : String) (id : Option Int)
deriving DecidableEq

/-- The five registered tool names of `handle_tool_call`'s dispatch chain. -/
def knownTools : List String :=
  ["weather", "crypto", "file", "health", "invoice_followup"]

/-- The method names `handle_message` recognises. -/
def knownMethods : List String :=
  ["initialize", "tools/list", "tools/call", "notifications/initialized", "ping"]

/-- `MCPServer.handle_tool_call` (src/mcp_server.py lines 155-214): reject
with -32002 while uninitialized, -32601 for an unknown tool name, -32000 for
an exception escaping a tool body, and a success envelope otherwise. -/
def handle_tool_call (initialized : Bool) (toolName : Option String)
    (id : Option Int) (exec : String → Except String Unit) : RpcOut :=
  if initialized then
    match toolName with
    | some n =>
      if n ∈ knownTools then
        match exec n with
        | .ok _ => .result id
        | .error e => .error (-32000) e id
      else .error (-32601) "Tool not found" id
    | none => .error (-32601) "Tool not found" id
  else .error (-32002) "Server not initialized" id

/-- `MCPServer.handle_message` (src/mcp_server.py lines 480-523).  Returns the
new value of the `initialized` flag and the optional response line. -/
def handle_message (initialized : Bool) (msg : Message)
    (exec : String → Except String Unit) : Bool × Option RpcOut :=
  if msg.method = "initialize" then
    -- handle_initialize: sets the flag, answers with the handshake result
    (true, some (.result msg.id))
  else if msg.method = "tools/list" then
    (initialized, some (.result msg.id))
  else if msg.method = "tools/call" then
    (initialized, some (handle_tool_call initialized msg.toolName msg.id exec))
  else if msg.method = "notifications/initialized" then
    (initialized, none)
  else if msg.method = "ping" then
    (initialized, some (.result msg.id))
  else
    match msg.id with
    | some i => (initialized, some (.error (-32601) "Method not found" (some i)))
    | none => (initialized, none)

/-! ## Crypto adapter (src/app.py `crypto`, src/mcp_server.py `crypto_tool`) -/

/-- The fixed symbol allow-list `SYMBOL_MAP` of src/app.py line 192 (the same
dict appears inline in `crypto_tool`). -/
def SYMBOL_MAP (s : String) : Option String :=
  if s = "btc" then some "bitcoin"
  else if s = "eth" then some "ethereum"
  else if s = "sol" then some "solana"
  else none

/-- The deterministic fallback price table `fixed`, with the `dict.get`
default of `1.0`. -/
def fixedPrice (coinId : String) : ℚ :=
  if coinId = "bitcoin" then 50000
  else if coinId = "ethereum" then 3500
  else if coinId = "solana" then 150
  else 1

/-- Outcome of the single CoinGecko call (no retries are performed). -/
inductive PriceLive where
  | ok (price : ℚ)
  | fail
deriving DecidableEq

inductive CryptoResult where
  | httpError (status : Nat) (detail : String)
  | quote (symbol : String) (vs : String) (price : ℚ) (source : String)
deriving DecidableEq

/-- HTTP endpoint `crypto` (src/app.py lines 195-222).  The second component
records whether the live CoinGecko call was attempted. -/
def crypto (symbol vs : String) (demoFallback : Bool) (live : PriceLive) :
    CryptoResult × Bool :=
  let sym := lowerStr symbol
  match SYMBOL_MAP sym with
  | none => (.httpError 400 "unsupported symbol", false)
  | some coinId =>
    let v := lowerStr vs
    if demoFallback then (.quote sym v (fixedPrice coinId) "fallback", false)
    else
      match live with
      | .ok p => (.quote sym v p "coingecko", true)
      | .fail => (.quote sym v (fixedPrice coinId) "fallback", true)

structure CryptoToolOut where
  symbol : String
  vs : String
  price : ℚ
  source : String
deriving DecidableEq

/-- stdio tool `MCPServer.crypto_tool` (src/mcp_server.py lines 280-307): an
unmapped symbol skips the network call and falls through to
`fixed.get(coin_id or "", 1.0)` with source `"fallback"`; it raises nothing. -/
def crypto_tool (symbol vs : String) (live : PriceLive) :
    CryptoToolOut × Bool :=
  let sym := lowerStr symbol
  let v := lowerStr vs
  match SYMBOL_MAP sym with
  | some coinId =>
    (match live with
     | .ok p => (⟨sym, v, p, "coingecko"⟩, true)
     | .fail => (⟨sym, v, fixedPrice coinId, "fallback"⟩, true))
  | none => (⟨sym, v, fixedPrice "", "fallback"⟩, false)

/-! ## File summarizer (src/app.py `file_summarizer`, src/mcp_server.py
`MCPServer.file_tool`) -/

/-- `" ".join(text.split())`: collapse whitespace runs to single spaces. -/
def normalizeWs (text : String) : String :=
  String.intercalate " "
    (((splitCharList ' ' (text.data.map
        (fun c => if c.isWhitespace then ' ' else c))).map String.mk).filter
      (fun s => s != ""))

structure FileOut where
  name : String
  chars : Nat
  text : String
deriving DecidableEq

inductive FileResult where
  | httpError (status : Nat) (detail : String)
  | ok (out : FileOut)
deriving DecidableEq

/-- HTTP endpoint `file_summarizer` (src/app.py lines 225-234): missing file
is a 404; otherwise whitespace-normalize, clip to `max_chars` characters. -/
def file_summarizer (name : String) (maxChars : Nat)
    (fs : String → Option String) : FileResult :=
  match fs name with
  | none => .httpError 404 "file not found"
  | some text =>
    let clipped := (normalizeWs text).take maxChars
    .ok ⟨name, clipped.length, clipped⟩

/-- stdio tool `MCPServer.file_tool` (src/mcp_server.py lines 309-340): a
missing file yields a synthesized demo payload, not a failure. -/
def file_tool (name : String) (maxChars : Nat)
    (fs : String → Option String) : FileOut :=
  match fs name with
  | none => ⟨name, 50, "Demo content: This is a sample file summary."⟩
  | some text =>
    let clipped := (normalizeWs text).take maxChars
    ⟨name, clipped.length, clipped⟩

/-! ## Dates (`_parse_date` of src/app.py lines 255-262 and src/mcp_server.py
lines 355-362, plus Python's `date` subtraction)

`datetime.strptime` with the format list `["%Y-%m-%d", "%m/%d/%Y",
"%d-%m-%Y"]`, first match wins.  In CPython, `%Y` matches exactly four
digits, `%m` one or two digits in 1..12, `%d` one or two digits in 1..31,
the whole string must be consumed, and the `date` constructor then rejects a
day beyond the month's length (and year 0).  Matching a format against the
whole string is equivalent to splitting on its separator character, since
the digit fields cannot contain the separator.  A Python `date` subtraction
yields the difference of linear day ordinals, computed here by the standard
civil-calendar day count. -/

structure Date where
  year : Nat
  month : Nat
  day : Nat
deriving DecidableEq

def isLeap (y : Nat) : Bool :=
  y % 4 == 0 && (y % 100 != 0 || y % 400 == 0)

def daysInMonth (y m : Nat) : Nat :=
  if m = 2 then (if isLeap y then 29 else 28)
  else if m = 4 ∨ m = 6 ∨ m = 9 ∨ m = 11 then 30
  else 31

/-- The `datetime.date` constructor's validity check. -/
def mkValidDate (y m d : Nat) : Option Date :=
  if 1 ≤ y ∧ 1 ≤ m ∧ m ≤ 12 ∧ 1 ≤ d ∧ d ≤ daysInMonth y m then
    some ⟨y, m, d⟩
  else none

/-- `%Y`: exactly four digits. -/
def parseY (cs : List Char) : Option Nat :=
  if cs.length = 4 && cs.all Char.isDigit then some (digitsToNat cs) else none

/-- `%m` / `%d`: one or two digits whose value lies in `[lo, hi]`. -/
def parseMD (lo hi : Nat) (cs : List Char) : Option Nat :=
  if (cs.length = 1 || cs.length = 2) && cs.all Char.isDigit then
    let n := digitsToNat cs
    if lo ≤ n ∧ n ≤ hi then some n else none
  else none

/-- Format `%Y-%m-%d`. -/
def parseYMD (s : String) : Option Date :=
  match splitCharList '-' s.data with
  | [ys, ms, ds] =>
    match parseY ys, parseMD 1 12 ms, parseMD 1 31 ds with
    | some y, some m, some d => mkValidDate y m d
    | _, _, _ => none
  | _ => none

/-- Format `%m/%d/%Y`. -/
def parseMDY (s : String) : Option Date :=
  match splitCharList '/' s.data with
  | [ms, ds, ys] =>
    match parseY ys, parseMD 1 12 ms, parseMD 1 31 ds with
    | some y, some m, some d => mkValidDate y m d
    | _, _, _ => none
  | _ => none

/-- Format `%d-%m-%Y`. -/
def parseDMY (s : String) : Option Date :=
  match splitCharList '-' s.data with
  | [ds, ms, ys] =>
    match parseY ys, parseMD 1 12 ms, parseMD 1 31 ds with
    | some y, some m, some d => mkValidDate y m d
    | _, _, _ => none
  | _ => none

/-- `_parse_date`: strip, then try the three formats in order. -/
def parseDate (s : String) : Option Date :=
  let t := trimChars s
  match parseYMD t with
  | some d => some d
  | none =>
    match parseMDY t with
    | some d => some d
    | none => parseDMY t

/-- Linear day count of a civil date (days since 1970-01-01, Hinnant's
`days_from_civil`; only differences are ever used, matching Python's
`(today - due).days`). -/
def dateOrd (d : Date) : Int :=
  let y := if d.month ≤ 2 then d.year - 1 else d.year
  let era := y / 400
  let yoe := y % 400
  let mp := (d.month + 9) % 12
  let doy := (153 * mp + 2) / 5 + d.day - 1
  let doe := yoe * 365 + yoe / 4 - yoe / 100 + doy
  ((era * 146097 + doe : Nat) : Int) - 719468

/-! ## Invoice follow-up engine (src/app.py `invoice_followup` lines 265-370,
src/mcp_server.py `MCPServer.invoice_followup_tool` lines 364-478)

A CSV resource is the header cell list plus its data rows; the four relevant
cells of each row are carried as raw strings (exactly what `csv.DictReader`
hands the loop). -/

structure RawRow where
  invoice_number : String
  broker : String
  due_date : String
  amount : String
deriving DecidableEq

structure CsvFile where
  header : List String
  rows : List RawRow
deriving DecidableEq

/-- `float(str(amount).replace(",", "").strip())`: drop the
thousands-separator commas. -/
def stripCommas (s : String) : String :=
  String.mk (s.data.filter (fun c => c ≠ ','))

/-- An exactly-represented decimal number `mantissa / 10 ^ scale` (the value
Python's `float(...)` parses from an invoice amount). -/
structure Amount where
  mantissa : Int
  scale : Nat
deriving DecidableEq

/-- Decimal literal accepted by Python's `float` (optional sign, digits with
at most one point, at least one digit; scientific notation and the special
values never occur in the invoice data and are not modelled). -/
def parseDecimal (s : String) : Option Amount :=
  let cs := s.data
  let signedTail : Int × List Char :=
    match cs with
    | '-' :: r => (-1, r)
    | '+' :: r => (1, r)
    | r => (1, r)
  let sign := signedTail.1
  let rest := signedTail.2
  let intPart := rest.takeWhile Char.isDigit
  match rest.dropWhile Char.isDigit with
  | [] =>
    if intPart = [] then none
    else some ⟨sign * digitsToNat intPart, 0⟩
  | '.' :: frac =>
    if frac.all Char.isDigit && !(intPart = [] && frac = []) then
      some ⟨sign * (digitsToNat intPart * 10 ^ frac.length + digitsToNat frac),
        frac.length⟩
    else none
  | _ => none

/-- The per-row field parses of step (5): trimmed invoice number and broker,
multi-format due date, comma-stripped decimal amount.  `none` is the
`except Exception: continue` path (the row is skipped). -/
def parseRow (r : RawRow) : Option (String × String × Date × Amount) :=
  match parseDate (trimChars r.due_date) with
  | none => none
  | some due =>
    match parseDecimal (trimChars (stripCommas r.amount)) with
    | none => none
    | some amt => some (trimChars r.invoice_number, trimChars r.broker, due, amt)

structure FollowupEmail where
  invoice_number : String
  broker : String
  due_date : Date
  amount : Amount
  days_overdue : Int
  tier : Int
  subject : String
deriving DecidableEq

/-- The tier loop: `tier = 0; for t in thresholds: if days >= t: tier = t;
else: break`. -/
def tierLoop (days : Int) : Int → List Int → Int
  | tier, [] => tier
  | tier, t :: ts => if t ≤ days then tierLoop days t ts else tier

/-- One iteration of the row loop: parse the fields, skip non-overdue rows,
skip rows below every threshold, otherwise build the templated email (the
body string escalates over the same tier bands and carries no further
information; it is represented by the tier). -/
def processRow (today : Int) (thresholds : List Int) (r : RawRow) :
    Option FollowupEmail :=
  match parseRow r with
  | none => none
  | some (inv, broker, due, amt) =>
    let days_overdue := today - dateOrd due
    if days_overdue ≤ 0 then none
    else
      let tier := tierLoop days_overdue 0 thresholds
      if tier = 0 then none
      else some
        { invoice_number := inv, broker := broker, due_date := due
          amount := amt, days_overdue := days_overdue, tier := tier
          subject := "Invoice " ++ inv ++ " is " ++ toString days_overdue ++
            " days overdue" }

/-- `sorted({int(t) for t in thresholds if int(t) > 0})`: keep the positive
values, deduplicate, sort ascending. -/
def normalizeThresholds (ts : List Int) : List Int :=
  List.insertionSort (· ≤ ·) ((ts.filter (fun t => 0 < t)).dedup)

/-- The header check: `{"invoice_number","broker","due_date","amount"}` must
be a subset of the stripped field names. -/
def requiredCols : List String :=
  ["invoice_number", "broker", "due_date", "amount"]

def headerOk (header : List String) : Bool :=
  requiredCols.all (fun c => (header.map trimChars).contains c)

inductive InvoiceResult where
  | httpError (status : Nat) (detail : String)
  | ok (processed : Nat) (overdue : Nat) (emails : List FollowupEmail)
      (source : String)
deriving DecidableEq

/-- HTTP endpoint `invoice_followup` (src/app.py lines 265-370).  `todayParam`
is the optional `today` override (`some ""` is falsy in Python and behaves
like `none`); `nowDate` is the current UTC date; `fs` is the resource
directory. -/
def invoice_followup (todayParam : Option String) (nowDate : Date)
    (thresholds_in : List Int) (csvName : String)
    (fs : String → Option CsvFile) : InvoiceResult :=
  let todayOpt : Option Date :=
    match todayParam with
    | some s => if s = "" then some nowDate else parseDate s
    | none => some nowDate
  match todayOpt with
  | none => .httpError 400 "unrecognized date format"
  | some today =>
    let thresholds := normalizeThresholds thresholds_in
    if thresholds = [] then
      .httpError 400 "thresholds must contain positive integers"
    else
      match fs csvName with
      | none => .httpError 404 "csv not found"
      | some file =>
        if headerOk file.header then
          let emails :=
            file.rows.filterMap (processRow (dateOrd today) thresholds)
          .ok file.rows.length emails.length emails csvName
        else .httpError 400 "csv missing columns"

/-- Failure channel of the stdio variant: `ValueError` / `FileNotFoundError`
raised out of the tool body (caught at the dispatcher as code -32000). -/
inductive ToolFailure where
  | valueError (msg : String)
  | fileNotFound (msg : String)
deriving DecidableEq

structure InvoiceOut where
  processed : Nat
  overdue : Nat
  emails : List FollowupEmail
  source : String
deriving DecidableEq

/-- stdio tool `MCPServer.invoice_followup_tool` (src/mcp_server.py lines
364-478): the same computation, with exceptions instead of HTTP statuses. -/
def invoice_followup_tool (todayParam : Option String) (nowDate : Date)
    (thresholds_in : List Int) (csvName : String)
    (fs : String → Option CsvFile) : Except ToolFailure InvoiceOut :=
  let todayOpt : Option Date :=
    match todayParam with
    | some s => if s = "" then some nowDate else parseDate s
    | none => some nowDate
  match todayOpt with
  | none => .error (.valueError "invalid today")
  | some today =>
    let thresholds := normalizeThresholds thresholds_in
    if thresholds = [] then
      .error (.valueError "thresholds must contain at least one positive integer")
    else
      match fs csvName with
      | none => .error (.fileNotFound ("csv not found: " ++ csvName))
      | some file =>
        if headerOk file.header then
          let emails :=
            file.rows.filterMap (processRow (dateOrd today) thresholds)
          .ok ⟨file.rows.length, emails.length, emails, csvName⟩
        else .error (.valueError "csv missing columns")

/-! ## Weather adapter (src/app.py `weather` lines 144-189 and
`geocode_city` lines 133-141)

The wall-clock dates of the fallback forecast (`time.strftime` over
`APP_START + 86400 * i`) are abstracted into a `dateOf : Nat → String`
parameter.  Temperatures are exact (`20.0 + i`, `10.0 + i`), so the float
arithmetic is rational. -/

structure WeatherDay where
  date : String
  t_max : ℚ
  t_min : ℚ
  precip_mm : ℚ
deriving DecidableEq

structure WeatherIn where
  city : Option String
  lat : Option ℚ
  lon : Option ℚ
  days : Nat
deriving DecidableEq

/-- Python truthiness of the optional `city` string (`if inp.city:`): an
empty string counts as absent. -/
def truthyStr : Option String → Bool
  | some s => s != ""
  | none => false

/-- The fixed local gazetteer `geocode_city`. -/
def geocode_city (city : String) : Option (ℚ × ℚ) :=
  let key := lowerStr (trimChars city)
  if key = "chicago" then some (418781 / 10000, -876298 / 10000)
  else if key = "new york" then some (407128 / 10000, -740060 / 10000)
  else if key = "london" then some (515074 / 10000, -1278 / 10000)
  else none

/-- The deterministic local mini-forecast used on bypass or failure:
day `i` has maximum `20.0 + i`, minimum `10.0 + i` and no precipitation. -/
def fallbackDaily (days : Nat) (dateOf : Nat → String) : List WeatherDay :=
  (List.range days).map (fun i => ⟨dateOf i, ((20 + i : Nat) : ℚ),
    ((10 + i : Nat) : ℚ), 0⟩)

/-- The location string `f"{lat},{lon}"` of the coordinate branch (Python's
float formatting is abstracted by `toString` on the exact rationals). -/
def latLonString (lat lon : ℚ) : String :=
  toString lat ++ "," ++ toString lon

/-- Outcome of the single open-meteo call. -/
inductive WeatherLive where
  | ok (rows : List WeatherDay)
  | fail
deriving DecidableEq

inductive WeatherResult where
  | httpError (status : Nat) (detail : String)
  | out (location : String) (daily : List WeatherDay) (source : String)
deriving DecidableEq

/-- The fetch half of the endpoint (after the location is resolved): bypass
or a failed live call produce the deterministic fallback tagged
`"fallback"`; a successful live call is tagged `"open-meteo"`.  The second
component records whether the live call was attempted. -/
def weatherFetch (location : String) (days : Nat) (demoFallback : Bool)
    (live : WeatherLive) (dateOf : Nat → String) : WeatherResult × Bool :=
  if demoFallback then
    (.out location (fallbackDaily days dateOf) "fallback", false)
  else
    match live with
    | .ok rows => (.out location rows "open-meteo", true)
    | .fail => (.out location (fallbackDaily days dateOf) "fallback", true)

/-- HTTP endpoint `weather` (src/app.py lines 144-189): a truthy `city` is
resolved through the gazetteer (unknown city: 400) and takes precedence
over any supplied coordinates; otherwise both `lat` and `lon` are required
(else 400). -/
def weather (inp : WeatherIn) (demoFallback : Bool) (live : WeatherLive)
    (dateOf : Nat → String) : WeatherResult × Bool :=
  if truthyStr inp.city then
    match geocode_city (inp.city.getD "") with
    | none => (.httpError 400 "unknown city", false)
    | some _ =>
      weatherFetch (inp.city.getD "") inp.days demoFallback live dateOf
  else
    match inp.lat, inp.lon with
    | some la, some lo =>
      weatherFetch (latLonString la lo) inp.days demoFallback live dateOf
    | _, _ => (.httpError 400 "provide city or lat/lon", false)

/-! ## Helper lemmas -/

deriving instance DecidableEq for Except

/-- The tier loop over a list whose members all exceed `days` never moves off
its accumulator (the first comparison already hits the `break`). -/
lemma tierLoop_const (days acc : Int) (ts : List Int)
    (h : ∀ t ∈ ts, days < t) : tierLoop days acc ts = acc := by
  cases ts with
  | nil => rfl
  | cons t ts' =>
    have ht := h t (by simp)
    simp [tierLoop, not_le.mpr ht]

/-- Over an ascending threshold list containing at least one value `≤ days`,
the tier loop returns the largest such value. -/
lemma tierLoop_max (days : Int) :
    ∀ (ts : List Int) (acc : Int), ts.Sorted (· ≤ ·) →
      (∃ t ∈ ts, t ≤ days) →
      tierLoop days acc ts ∈ ts ∧ tierLoop days acc ts ≤ days ∧
        ∀ t ∈ ts, t ≤ days → t ≤ tierLoop days acc ts := by
  intro ts
  induction ts with
  | nil => intro acc _ hex; simp at hex
  | cons t ts' ih =>
    intro acc hsort hex
    rw [List.sorted_cons] at hsort
    obtain ⟨hle, hsort'⟩ := hsort
    by_cases hday : t ≤ days
    · have hstep : tierLoop days acc (t :: ts') = tierLoop days t ts' := by
        simp [tierLoop, hday]
      rw [hstep]
      by_cases hex' : ∃ u ∈ ts', u ≤ days
      · obtain ⟨hmem, hle2, hmax⟩ := ih t hsort' hex'
        refine ⟨List.mem_cons_of_mem _ hmem, hle2, ?_⟩
        intro u hu hud
        rcases List.mem_cons.mp hu with rfl | hu'
        · exact hle _ hmem
        · exact hmax u hu' hud
      · push_neg at hex'
        rw [tierLoop_const days t ts' hex']
        refine ⟨List.mem_cons_self _ _, hday, ?_⟩
        intro u hu hud
        rcases List.mem_cons.mp hu with rfl | hu'
        · exact le_refl _
        · exact absurd hud (not_le.mpr (hex' u hu'))
    · exfalso
      obtain ⟨u, hu, hud⟩ := hex
      rcases List.mem_cons.mp hu with rfl | hu'
      · exact hday hud
      · exact hday (le_trans (hle u hu') hud)

/-! ## Claims -/

/-- C1: while the dispatcher is in the Uninitialized state, a `tools/call`
request is answered with an error envelope carrying code -32002 (whatever
the tool name and the tool bodies), while `initialize`, `tools/list` and
`ping` requests are answered with a success envelope echoing the request id
regardless of the initialization state (`initialize` additionally moves the
state to Initialized). -/
theorem C1_uninitialized_dispatch (st : Bool) (id : Option Int)
    (tn : Option String) (exec : String → Except String Unit) :
    handle_message false ⟨"tools/call", id, tn⟩ exec =
      (false, some (.error (-32002) "Server not initialized" id)) ∧
    handle_message st ⟨"initialize", id, tn⟩ exec = (true, some (.result id)) ∧
    handle_message st ⟨"tools/list", id, tn⟩ exec = (st, some (.result id)) ∧
    handle_message st ⟨"ping", id, tn⟩ exec = (st, some (.result id)) := by
  refine ⟨?_, ?_, ?_, ?_⟩ <;> simp [handle_message, handle_tool_call]

/-- C2: for a row whose fields parse and whose overdue-day count is
positive, the produced email's tier is the largest element of the ascending,
positive threshold list that is `≤` the count (the comparison is `>=`, so a
count equal to a threshold meets it); a count below every threshold yields
no email.  Concretely with thresholds `[7, 14, 21]` and due date 2024-01-01:
reference 2024-01-22 (21 days) gives tier 21, 2024-01-21 (20 days) gives
tier 14, and 2024-01-07 (6 days) gives no email. -/
theorem C2_tier_assignment (today : Int) (ts : List Int) (r : RawRow)
    (inv broker : String) (due : Date) (amt : Amount)
    (hsort : ts.Sorted (· ≤ ·)) (hpos : ∀ t ∈ ts, 0 < t)
    (hparse : parseRow r = some (inv, broker, due, amt))
    (hover : 0 < today - dateOrd due) :
    (∀ e, processRow today ts r = some e →
      e.days_overdue = today - dateOrd due ∧ e.tier ∈ ts ∧
      e.tier ≤ today - dateOrd due ∧
      ∀ t ∈ ts, t ≤ today - dateOrd due → t ≤ e.tier) ∧
    ((∃ t ∈ ts, t ≤ today - dateOrd due) →
      ∃ e, processRow today ts r = some e) ∧
    ((∀ t ∈ ts, today - dateOrd due < t) → processRow today ts r = none) ∧
    (processRow (dateOrd ⟨2024, 1, 22⟩) [7, 14, 21]
      ⟨"INV1", "Acme", "2024-01-01", "1000"⟩).map FollowupEmail.tier =
        some 21 ∧
    (processRow (dateOrd ⟨2024, 1, 21⟩) [7, 14, 21]
      ⟨"INV1", "Acme", "2024-01-01", "1000"⟩).map FollowupEmail.tier =
        some 14 ∧
    processRow (dateOrd ⟨2024, 1, 7⟩) [7, 14, 21]
      ⟨"INV1", "Acme", "2024-01-01", "1000"⟩ = none := by
  have hred : processRow today ts r =
      (if tierLoop (today - dateOrd due) 0 ts = 0 then none
       else some
        { invoice_number := inv, broker := broker, due_date := due
          amount := amt, days_overdue := today - dateOrd due
          tier := tierLoop (today - dateOrd due) 0 ts
          subject := "Invoice " ++ inv ++ " is " ++
            toString (today - dateOrd due) ++ " days overdue" }) := by
    simp only [processRow, hparse]
    rw [if_neg (not_le.mpr hover)]
  refine ⟨?_, ?_, ?_, by decide, by decide, by decide⟩
  · intro e he
    rw [hred] at he
    by_cases h0 : tierLoop (today - dateOrd due) 0 ts = 0
    · rw [if_pos h0] at he; cases he
    · rw [if_neg h0] at he
      have hex : ∃ t ∈ ts, t ≤ today - dateOrd due := by
        by_contra hc
        push_neg at hc
        exact h0 (tierLoop_const _ _ _ hc)
      obtain ⟨hmem, hle2, hmax⟩ := tierLoop_max (today - dateOrd due) ts 0 hsort hex
      cases he
      exact ⟨rfl, hmem, hle2, hmax⟩
  · intro hex
    obtain ⟨hmem, _, _⟩ := tierLoop_max (today - dateOrd due) ts 0 hsort hex
    have h0 : ¬ tierLoop (today - dateOrd due) 0 ts = 0 := by
      have := hpos _ hmem
      omega
    rw [hred, if_neg h0]
    exact ⟨_, rfl⟩
  · intro hall
    rw [hred, if_pos (tierLoop_const _ _ _ hall)]

/-- C2 witness: the three concrete scenarios of the claim, obtained from
`C2_tier_assignment` at the row `INV1,Acme,2024-01-01,1000`. -/
theorem C2_tier_assignment_witness :
    (processRow (dateOrd ⟨2024, 1, 22⟩) [7, 14, 21]
      ⟨"INV1", "Acme", "2024-01-01", "1000"⟩).map FollowupEmail.tier =
        some 21 ∧
    (processRow (dateOrd ⟨2024, 1, 21⟩) [7, 14, 21]
      ⟨"INV1", "Acme", "2024-01-01", "1000"⟩).map FollowupEmail.tier =
        some 14 ∧
    processRow (dateOrd ⟨2024, 1, 7⟩) [7, 14, 21]
      ⟨"INV1", "Acme", "2024-01-01", "1000"⟩ = none := by
  have h := C2_tier_assignment (dateOrd ⟨2024, 1, 22⟩) [7, 14, 21]
    ⟨"INV1", "Acme", "2024-01-01", "1000"⟩ "INV1" "Acme" ⟨2024, 1, 1⟩ ⟨1000, 0⟩
    (by decide) (by decide) (by decide) (by decide)
  exact ⟨h.2.2.2.1, h.2.2.2.2.1, h.2.2.2.2.2⟩

/-- C3 counterexample: the stdio `crypto_tool` cited by the claim does NOT
fail for the out-of-allow-list symbol "doge": it performs no network call
but returns a successful quote with the fallback default price 1.0 and
source "fallback", so the claim's "the operation fails with an
InvalidArgument error ... it never returns a price" is false on the code. -/
theorem C3_counterexample :
    crypto_tool "doge" "usd" PriceLive.fail =
      (⟨"doge", "usd", 1, "fallback"⟩, false) := by decide

/-- C3 (amended): for every symbol whose lowercasing is outside
{btc, eth, sol}, neither variant attempts a network call; the HTTP endpoint
fails with InvalidArgument (HTTP 400 "unsupported symbol"), while the stdio
tool instead returns a fallback quote with price 1.0. -/
theorem C3_amended (sym vs : String) (b : Bool) (live : PriceLive)
    (h : SYMBOL_MAP (lowerStr sym) = none) :
    crypto sym vs b live = (.httpError 400 "unsupported symbol", false) ∧
    crypto_tool sym vs live =
      (⟨lowerStr sym, lowerStr vs, 1, "fallback"⟩, false) := by
  constructor
  · simp [crypto, h]
  · simp [crypto_tool, h, fixedPrice]

/-- C3 witness: `C3_amended` at the concrete symbol "doge". -/
theorem C3_amended_witness :
    crypto "doge" "usd" true PriceLive.fail =
      (.httpError 400 "unsupported symbol", false) ∧
    crypto_tool "doge" "usd" PriceLive.fail =
      (⟨"doge", "usd", 1, "fallback"⟩, false) :=
  C3_amended "doge" "usd" true PriceLive.fail (by decide)

/-- C4 counterexample: the stdio `file_tool` cited by the claim does NOT
fail for a missing file: it returns a synthesized demo summary, so the
claim's "they never return synthesized content for a missing resource" is
false on the code. -/
theorem C4_counterexample :
    file_tool "missing.txt" 200 (fun _ => none) =
      ⟨"missing.txt", 50, "Demo content: This is a sample file summary."⟩ := by
  decide

/-- C4 (amended): for a missing resource the HTTP file endpoint and the HTTP
invoice endpoint fail with 404, and the stdio invoice tool raises
FileNotFoundError; the stdio file tool, however, returns a synthesized demo
summary instead of failing. -/
theorem C4_amended (name csvName : String) (mc : Nat)
    (fsF : String → Option String) (fsC : String → Option CsvFile)
    (nowDate : Date) (ts : List Int)
    (h1 : fsF name = none) (h2 : fsC csvName = none)
    (hts : ¬ normalizeThresholds ts = []) :
    file_summarizer name mc fsF = .httpError 404 "file not found" ∧
    invoice_followup none nowDate ts csvName fsC =
      .httpError 404 "csv not found" ∧
    invoice_followup_tool none nowDate ts csvName fsC =
      .error (.fileNotFound ("csv not found: " ++ csvName)) ∧
    file_tool name mc fsF =
      ⟨name, 50, "Demo content: This is a sample file summary."⟩ := by
  refine ⟨?_, ?_, ?_, ?_⟩
  · simp [file_summarizer, h1]
  · simp [invoice_followup, hts, h2]
  · simp [invoice_followup_tool, hts, h2]
  · simp [file_tool, h1]

/-- C4 witness: `C4_amended` on an empty resource directory. -/
theorem C4_amended_witness :
    file_summarizer "m.txt" 10 (fun _ => none) =
      .httpError 404 "file not found" ∧
    invoice_followup none ⟨2024, 1, 1⟩ [7, 14, 21] "g.csv" (fun _ => none) =
      .httpError 404 "csv not found" ∧
    invoice_followup_tool none ⟨2024, 1, 1⟩ [7, 14, 21] "g.csv"
      (fun _ => none) =
      .error (.fileNotFound ("csv not found: " ++ "g.csv")) ∧
    file_tool "m.txt" 10 (fun _ => none) =
      ⟨"m.txt", 50, "Demo content: This is a sample file summary."⟩ :=
  C4_amended "m.txt" "g.csv" 10 (fun _ => none) (fun _ => none) ⟨2024, 1, 1⟩
    [7, 14, 21] rfl rfl (by decide)

/-- C5: with the fallback bypass set, a crypto query for an allow-listed
symbol yields source "fallback" and the fixed price table (btc 50000.0,
eth 3500.0, sol 150.0) without a network call, and a weather query with a
valid location yields source "fallback" and the deterministic forecast of
exactly `days` entries whose entry `i` has `t_max = 20.0 + i`,
`t_min = 10.0 + i` and `precip_mm = 0.0`, without a network call. -/
theorem C5_fallback_determinism (sym vs coinId : String) (live : PriceLive)
    (inp : WeatherIn) (wlive : WeatherLive) (dateOf : Nat → String)
    (hsym : SYMBOL_MAP (lowerStr sym) = some coinId)
    (hloc : (truthyStr inp.city = true ∧
              (geocode_city (inp.city.getD "")).isSome = true) ∨
            (truthyStr inp.city = false ∧ inp.lat.isSome = true ∧
              inp.lon.isSome = true)) :
    crypto sym vs true live =
      (.quote (lowerStr sym) (lowerStr vs) (fixedPrice coinId) "fallback",
        false) ∧
    fixedPrice "bitcoin" = 50000 ∧ fixedPrice "ethereum" = 3500 ∧
    fixedPrice "solana" = 150 ∧
    (∃ loc, weather inp true wlive dateOf =
      (.out loc (fallbackDaily inp.days dateOf) "fallback", false)) ∧
    (fallbackDaily inp.days dateOf).length = inp.days ∧
    (∀ i (h : i < (fallbackDaily inp.days dateOf).length),
      (fallbackDaily inp.days dateOf).get ⟨i, h⟩ =
        ⟨dateOf i, 20 + (i : ℚ), 10 + (i : ℚ), 0⟩) := by
  refine ⟨?_, by decide, by decide, by decide, ?_, ?_, ?_⟩
  · simp [crypto, hsym]
  · rcases hloc with ⟨hc, hg⟩ | ⟨hc, hla, hlo⟩
    · obtain ⟨g, hg'⟩ := Option.isSome_iff_exists.mp hg
      exact ⟨inp.city.getD "", by simp [weather, hc, hg', weatherFetch]⟩
    · obtain ⟨la, hla'⟩ := Option.isSome_iff_exists.mp hla
      obtain ⟨lo, hlo'⟩ := Option.isSome_iff_exists.mp hlo
      refine ⟨latLonString la lo, ?_⟩
      cases inp
      simp only at hla' hlo' hc
      subst hla'; subst hlo'
      simp [weather, hc, weatherFetch]
  · simp [fallbackDaily]
  · intro i h
    simp only [fallbackDaily, List.get_eq_getElem, List.getElem_map,
      List.getElem_range]
    simp only [WeatherDay.mk.injEq, eq_self_iff_true, true_and, and_true]
    exact ⟨by push_cast; ring, by push_cast; ring⟩

/-- C5 witness: `C5_fallback_determinism` at symbol "BTC" (price 50000) and
a two-day Chicago forecast. -/
theorem C5_fallback_determinism_witness :
    crypto "BTC" "USD" true PriceLive.fail =
      (.quote "btc" "usd" (fixedPrice "bitcoin") "fallback", false) ∧
    (fallbackDaily 2 (fun _ => "d")).length = 2 := by
  have h := C5_fallback_determinism "BTC" "USD" "bitcoin" PriceLive.fail
    ⟨some "chicago", none, none, 2⟩ WeatherLive.fail (fun _ => "d")
    (by decide) (Or.inl ⟨by decide, by decide⟩)
  exact ⟨h.1, h.2.2.2.2.2.1⟩

/-- C6: threshold normalization keeps exactly the positive values,
deduplicates and sorts ascending; an empty normalized list makes the
invoice endpoint fail with InvalidArgument (400); `[0, -3, 7]` normalizes
to `[7]`. -/
theorem C6_threshold_normalization (ts : List Int) (nowDate : Date)
    (csvName : String) (fs : String → Option CsvFile) :
    (normalizeThresholds ts).Sorted (· ≤ ·) ∧
    (normalizeThresholds ts).Nodup ∧
    (∀ t : Int, t ∈ normalizeThresholds ts ↔ t ∈ ts ∧ 0 < t) ∧
    (normalizeThresholds ts = [] →
      invoice_followup none nowDate ts csvName fs =
        .httpError 400 "thresholds must contain positive integers") ∧
    normalizeThresholds [0, -3, 7] = [7] := by
  refine ⟨?_, ?_, ?_, ?_, by decide⟩
  · exact List.sorted_insertionSort _ _
  · exact ((List.perm_insertionSort _ _).nodup_iff).mpr (List.nodup_dedup _)
  · intro t
    rw [normalizeThresholds, (List.perm_insertionSort _ _).mem_iff,
      List.mem_dedup, List.mem_filter]
    simp
  · intro h
    simp [invoice_followup, h]

/-- C6 witness: `C6_threshold_normalization` at thresholds `[0, -3]`, whose
normalization is empty, so the endpoint rejects them. -/
theorem C6_threshold_normalization_witness :
    invoice_followup none ⟨2024, 1, 1⟩ [0, -3] "f.csv" (fun _ => none) =
      .httpError 400 "thresholds must contain positive integers" :=
  (C6_threshold_normalization [0, -3] ⟨2024, 1, 1⟩ "f.csv"
    (fun _ => none)).2.2.2.1 (by decide)

/-- C7: once the header validates, the processed count is the full number of
data rows (incremented unconditionally), a row whose fields fail to parse
produces no email, appending such a row changes no email output, and the
call as a whole still succeeds. -/
theorem C7_rows_processed_unconditionally (nowDate : Date) (ts : List Int)
    (csvName : String) (fs : String → Option CsvFile) (file : CsvFile)
    (hfs : fs csvName = some file) (hh : headerOk file.header = true)
    (hts : ¬ normalizeThresholds ts = []) :
    (∃ o emails, invoice_followup none nowDate ts csvName fs =
      .ok file.rows.length o emails csvName) ∧
    (∀ (r : RawRow) (today : Int) (th : List Int),
      parseRow r = none → processRow today th r = none) ∧
    (∀ (rows : List RawRow) (r : RawRow) (today : Int) (th : List Int),
      parseRow r = none →
      (rows ++ [r]).filterMap (processRow today th) =
        rows.filterMap (processRow today th)) := by
  refine ⟨?_, ?_, ?_⟩
  · refine ⟨(file.rows.filterMap
        (processRow (dateOrd nowDate) (normalizeThresholds ts))).length,
      file.rows.filterMap (processRow (dateOrd nowDate) (normalizeThresholds ts)),
      ?_⟩
    simp [invoice_followup, hfs, hh, hts]
  · intro r today th h
    simp [processRow, h]
  · intro rows r today th h
    simp [List.filterMap_append, processRow, h]

/-- C7 witness: `C7_rows_processed_unconditionally` on a one-row CSV whose
amount "abc" is unparseable: processed is 1, no email, no error. -/
theorem C7_rows_processed_unconditionally_witness :
    invoice_followup none ⟨2024, 3, 1⟩ [7, 14, 21] "bad.csv"
      (fun n => if n = "bad.csv" then
        some ⟨requiredCols, [⟨"I1", "B", "2024-01-01", "abc"⟩]⟩ else none) =
      .ok 1 0 [] "bad.csv" ∧
    processRow (dateOrd ⟨2024, 3, 1⟩) [7, 14, 21]
      ⟨"I1", "B", "2024-01-01", "abc"⟩ = none := by
  have h := C7_rows_processed_unconditionally ⟨2024, 3, 1⟩ [7, 14, 21] "bad.csv"
    (fun n => if n = "bad.csv" then
      some ⟨requiredCols, [⟨"I1", "B", "2024-01-01", "abc"⟩]⟩ else none)
    ⟨requiredCols, [⟨"I1", "B", "2024-01-01", "abc"⟩]⟩
    (by decide) (by decide) (by decide)
  exact ⟨by decide, h.2.1 _ _ _ (by decide)⟩

/-- C8: a message whose method is none of the five known methods is answered
with a -32601 error envelope echoing the correlation id when one is present,
and with no response at all when the id is absent. -/
theorem C8_unknown_method (st : Bool) (m : String) (tn : Option String)
    (i : Int) (exec : String → Except String Unit)
    (h : m ∉ knownMethods) :
    handle_message st ⟨m, some i, tn⟩ exec =
      (st, some (.error (-32601) "Method not found" (some i))) ∧
    handle_message st ⟨m, none, tn⟩ exec = (st, none) := by
  simp [knownMethods] at h
  obtain ⟨h1, h2, h3, h4, h5⟩ := h
  constructor <;> simp [handle_message, h1, h2, h3, h4, h5]

/-- C8 witness: `C8_unknown_method` at the unknown method "frobnicate",
with and without an id. -/
theorem C8_unknown_method_witness :
    handle_message false ⟨"frobnicate", some 5, none⟩ (fun _ => .ok ()) =
      (false, some (.error (-32601) "Method not found" (some 5))) ∧
    handle_message false ⟨"frobnicate", none, none⟩ (fun _ => .ok ()) =
      (false, none) :=
  C8_unknown_method false "frobnicate" none 5 (fun _ => .ok ()) (by decide)

/-- C9 counterexample: a request supplying BOTH location forms (city
"chicago" together with explicit coordinates) is answered, not rejected —
the city silently takes precedence — so the claim's "supplying both forms
at once is rejected as invalid" is false on the code. -/
theorem C9_counterexample :
    weather ⟨some "chicago", some 1, some 2, 1⟩ true WeatherLive.fail
        (fun _ => "D") =
      (.out "chicago" [⟨"D", 20, 10, 0⟩] "fallback", false) := by decide

/-- C9 (amended): a request supplying neither form (no truthy city and a
missing latitude or longitude) is rejected with 400, a truthy but
unresolvable city is rejected with 400, and when both forms are supplied
the city takes precedence: the response is identical to the one for the
city alone. -/
theorem C9_amended :
    (∀ (c : Option String) (la lo : Option ℚ) (d : Nat) (b : Bool)
        (live : WeatherLive) (dateOf : Nat → String),
      truthyStr c = false → la = none ∨ lo = none →
      weather ⟨c, la, lo, d⟩ b live dateOf =
        (.httpError 400 "provide city or lat/lon", false)) ∧
    (∀ (c : String) (la lo : Option ℚ) (d : Nat) (b : Bool)
        (live : WeatherLive) (dateOf : Nat → String),
      truthyStr (some c) = true → geocode_city c = none →
      weather ⟨some c, la, lo, d⟩ b live dateOf =
        (.httpError 400 "unknown city", false)) ∧
    (∀ (c : String) (la lo : Option ℚ) (d : Nat) (b : Bool)
        (live : WeatherLive) (dateOf : Nat → String),
      truthyStr (some c) = true →
      weather ⟨some c, la, lo, d⟩ b live dateOf =
        weather ⟨some c, none, none, d⟩ b live dateOf) := by
  refine ⟨?_, ?_, ?_⟩
  · intro c la lo d b live dateOf h hor
    rcases hor with rfl | rfl
    · cases lo <;> simp [weather, h]
    · cases la <;> simp [weather, h]
  · intro c la lo d b live dateOf h hg
    simp [weather, h, hg]
  · intro c la lo d b live dateOf h
    simp [weather, h]

/-- C9 witness: `C9_amended` at a no-location request, an unknown city, and
a both-forms request whose answer matches the city-only answer. -/
theorem C9_amended_witness :
    weather ⟨none, none, none, 1⟩ true WeatherLive.fail (fun _ => "") =
      (.httpError 400 "provide city or lat/lon", false) ∧
    weather ⟨some "berlin", none, none, 1⟩ true WeatherLive.fail (fun _ => "") =
      (.httpError 400 "unknown city", false) ∧
    weather ⟨some "chicago", some 1, some 2, 1⟩ true WeatherLive.fail
        (fun _ => "") =
      weather ⟨some "chicago", none, none, 1⟩ true WeatherLive.fail
        (fun _ => "") := by
  obtain ⟨h1, h2, h3⟩ := C9_amended
  exact ⟨h1 none none none 1 true WeatherLive.fail (fun _ => "") rfl (Or.inl rfl),
    h2 "berlin" none none 1 true WeatherLive.fail (fun _ => "") (by decide)
      (by decide),
    h3 "chicago" (some 1) (some 2) 1 true WeatherLive.fail (fun _ => "")
      (by decide)⟩

/-- C10: every successful invoice follow-up response (on either transport)
has `overdue` equal to the length of its `emails` list and
`overdue ≤ processed`, since the emails arise by filtering the processed
rows. -/
theorem C10_overdue_matches_emails (tp : Option String) (nowDate : Date)
    (ts : List Int) (csvName : String) (fs : String → Option CsvFile) :
    (∀ (p o : Nat) (emails : List FollowupEmail) (src : String),
      invoice_followup tp nowDate ts csvName fs = .ok p o emails src →
      o = emails.length ∧ o ≤ p) ∧
    (∀ out : InvoiceOut,
      invoice_followup_tool tp nowDate ts csvName fs = .ok out →
      out.overdue = out.emails.length ∧ out.overdue ≤ out.processed) := by
  constructor
  · intro p o emails src h
    simp only [invoice_followup] at h
    split at h
    · exact absurd h (by simp)
    · split at h
      · exact absurd h (by simp)
      · split at h
        · exact absurd h (by simp)
        · split at h
          · injection h with h1 h2 h3 h4
            subst h1; subst h2; subst h3
            exact ⟨rfl, List.length_filterMap_le _ _⟩
          · exact absurd h (by simp)
  · intro out h
    simp only [invoice_followup_tool] at h
    split at h
    · exact absurd h (by simp)
    · split at h
      · exact absurd h (by simp)
      · split at h
        · exact absurd h (by simp)
        · split at h
          · injection h with h1
            subst h1
            exact ⟨rfl, List.length_filterMap_le _ _⟩
          · exact absurd h (by simp)

/-- C10 witness: `C10_overdue_matches_emails` on an empty CSV, where both
transports return processed 0, overdue 0 and no emails. -/
theorem C10_overdue_matches_emails_witness :
    (0 = ([] : List FollowupEmail).length ∧ 0 ≤ 0) ∧
    ((InvoiceOut.mk 0 0 [] "f.csv").overdue =
      (InvoiceOut.mk 0 0 [] "f.csv").emails.length ∧
     (InvoiceOut.mk 0 0 [] "f.csv").overdue ≤
      (InvoiceOut.mk 0 0 [] "f.csv").processed) := by
  have h := C10_overdue_matches_emails none ⟨2024, 1, 1⟩ [7, 14, 21] "f.csv"
    (fun n => if n = "f.csv" then some ⟨requiredCols, []⟩ else none)
  exact ⟨h.1 0 0 [] "f.csv" (by decide), h.2 ⟨0, 0, [], "f.csv"⟩ (by decide)⟩

end MCPDemo
